import Mathlib

/-!
# SchemeMitra — verification of the core matching, filtering and explanation logic

Shallow embedding of the core functions of `src/app.py` (the only source file):
`calculate_match_score`, `filter_schemes`, `load_schemes`, `call_azure_openai`
and `generate_eligibility_explanation`.  Python strings are modelled as Lean
`String`s, with Python's `str.lower` and the `in` substring test modelled
explicitly (`pyLower`, `strIn`); fallible code is modelled with explicit
outcome types and `Except`-style results so that "no exception propagates"
is visible in the return type.
-/

namespace SchemeMitra

/-- Model of Python `str.lower()`: lowercase every character. -/
def pyLower (s : String) : String := ⟨s.data.map Char.toLower⟩

/-- Boolean substring test on character lists: `needle` occurs contiguously
inside `hay` (the semantics of Python's `needle in hay` on strings;
the empty needle is contained in every string). -/
def listContains (hay needle : List Char) : Bool :=
  needle.isPrefixOf hay ||
    match hay with
    | [] => false
    | _ :: t => listContains t needle

/-- Model of Python's `needle in hay` substring operator on strings. -/
def strIn (needle hay : String) : Bool := listContains hay.data needle.data

/-- A scheme record, per the fields of `schemes.json` that `app.py` reads
(the data model of spec §3). -/
structure Scheme where
  id : Nat
  name : String
  ministry : String
  beneficiary : String
  benefit : String
  category : String
  description : String
  source_url : String
deriving DecidableEq, Repr

/-- The fixed keyword vocabulary of `calculate_match_score` (app.py lines 206-209). -/
def keywords : List String :=
  ["farmer", "women", "youth", "student", "senior", "elder", "msme", "business",
   "entrepreneur", "girl", "female", "young", "old", "small", "enterprise"]

/-- Embedding of `calculate_match_score` (app.py lines 201-217).
`scheme_text` is the lowercased `f"{name} {beneficiary} {category}"`
(space-separated), `matches` counts vocabulary keywords that are substrings
of both texts, and the score is `min(95, 50 + 5 * matches)`. -/
def calculate_match_score (scheme : Scheme) (user_profile : String) : Nat :=
  let scheme_text := pyLower (scheme.name ++ " " ++ scheme.beneficiary ++ " " ++ scheme.category)
  let profile_text := pyLower user_profile
  let match_count := keywords.countP (fun keyword => strIn keyword scheme_text && strIn keyword profile_text)
  let base_score := 50
  let additional_score := match_count * 5
  min 95 (base_score + additional_score)

/-- Embedding of `filter_schemes` (app.py lines 1228-1261): four sequential
list comprehensions, each guarded by whether its criterion is active.
Python's `if search_query:` truthiness test on a string is non-emptiness. -/
def filter_schemes (schemes : List Scheme)
    (search_query : String := "")
    (ministry_filter : String := "All Ministries")
    (beneficiary_filter : String := "All Types")
    (category_filter : String := "All Categories") : List Scheme :=
  let filtered := schemes
  let filtered :=
    if search_query ≠ "" then
      let search_lower := pyLower search_query
      filtered.filter (fun s =>
        strIn search_lower (pyLower s.name) ||
        strIn search_lower (pyLower s.description) ||
        strIn search_lower (pyLower s.ministry) ||
        strIn search_lower (pyLower s.beneficiary))
    else filtered
  let filtered :=
    if ministry_filter ≠ "All Ministries" then
      filtered.filter (fun s => s.ministry == ministry_filter)
    else filtered
  let filtered :=
    if beneficiary_filter ≠ "All Types" then
      filtered.filter (fun s => s.beneficiary == beneficiary_filter)
    else filtered
  let filtered :=
    if category_filter ≠ "All Categories" then
      filtered.filter (fun s => s.category == category_filter)
    else filtered
  filtered

/-- The filtering criterion exactly as the spec states it: the (non-empty)
query must occur case-insensitively as a substring of name, description,
ministry or beneficiary (OR across the four fields), and each categorical
criterion that differs from its "All ..." sentinel must equal the
corresponding field; active criteria combine with AND. -/
def matchesCriteria (search_query ministry_filter beneficiary_filter category_filter : String)
    (s : Scheme) : Bool :=
  (search_query == "" ||
    (strIn (pyLower search_query) (pyLower s.name) ||
     strIn (pyLower search_query) (pyLower s.description) ||
     strIn (pyLower search_query) (pyLower s.ministry) ||
     strIn (pyLower search_query) (pyLower s.beneficiary))) &&
  (ministry_filter == "All Ministries" || s.ministry == ministry_filter) &&
  (beneficiary_filter == "All Types" || s.beneficiary == beneficiary_filter) &&
  (category_filter == "All Categories" || s.category == category_filter)

/-- The outcomes of reading and JSON-parsing the catalog file `schemes.json`
that `load_schemes` can encounter: the file is absent (`open` raises
`FileNotFoundError`), its content is not parseable as the expected document
(`json.load` raises `json.JSONDecodeError`, carrying a message), or parsing
succeeds, yielding a document whose `schemes` field may be present or absent
(`data.get('schemes', [])`). -/
inductive CatalogResource where
  | missing : CatalogResource
  | malformed (msg : String) : CatalogResource
  | wellFormed (schemes? : Option (List Scheme)) : CatalogResource
deriving DecidableEq

/-- What a call to `load_schemes` does: either it returns a scheme list
(with `errorReported = true` when it called `st.error` first), or an
exception escapes it. -/
inductive LoadResult where
  | returned (schemes : List Scheme) (errorReported : Bool) : LoadResult
  | raised (msg : String) : LoadResult
deriving DecidableEq

/-- Embedding of `load_schemes` (app.py lines 63-72).  Only
`FileNotFoundError` is caught (reporting via `st.error` and returning `[]`);
a `json.JSONDecodeError` from malformed content is not handled and
propagates.  A parsed document without a `schemes` field yields `[]`. -/
def load_schemes : CatalogResource → LoadResult
  | .missing => .returned [] true
  | .malformed msg => .raised msg
  | .wellFormed schemes? => .returned (schemes?.getD []) false

/-- The Azure OpenAI configuration read from the environment
(app.py lines 50-52): `os.getenv` yields `None` when a variable is unset. -/
structure AzureConfig where
  apiKey : Option String
  endpoint : Option String
  deploymentName : String
deriving DecidableEq

/-- Python truthiness of an `os.getenv` result: `None` and the empty string
are falsy.  `all([KEY, ENDPOINT])` in app.py line 98 tests exactly this. -/
def pyTruthy : Option String → Bool
  | none => false
  | some s => s ≠ ""

/-- Whether the credential check `all([AZURE_OPENAI_API_KEY,
AZURE_OPENAI_ENDPOINT])` passes. -/
def credsConfigured (cfg : AzureConfig) : Bool :=
  pyTruthy cfg.apiKey && pyTruthy cfg.endpoint

/-- The exceptions the `try` block of `call_azure_openai` can raise:
`requests.exceptions.RequestException` (connection error, timeout, and —
via `raise_for_status()` — any non-2xx response) or any other `Exception`
(e.g. `KeyError`/`IndexError`/`TypeError` from extracting
`result['choices'][0]['message']['content']` out of a malformed payload). -/
inductive PyExc where
  | requestException (msg : String) : PyExc
  | otherException (msg : String) : PyExc
deriving DecidableEq

/-- The observable outcome of the HTTPS round trip plus response parsing
attempted inside the `try` block (app.py lines 101-129): either the full
chain succeeds and produces the message content string, or one of the two
exception classes is raised. -/
inductive ApiOutcome where
  | success (content : String) : ApiOutcome
  | failure (e : PyExc) : ApiOutcome
deriving DecidableEq

/-- The body of the `try` block of `call_azure_openai` as an `Except`:
it either completes with the extracted content or raises a `PyExc`. -/
def azure_try : ApiOutcome → Except PyExc String
  | .success content => .ok content
  | .failure e => .error e

/-- Embedding of `call_azure_openai` (app.py lines 93-134).  The network
interaction is abstracted by `outcome`; `prompt` and `max_tokens` only shape
the outgoing request and do not influence which handler runs.  Missing or
empty credentials short-circuit before the `try` block.  Both exception
classes are caught and turned into warning strings, so the function is total
into `String`: no exception propagates. -/
def call_azure_openai (cfg : AzureConfig) (outcome : ApiOutcome)
    (prompt : String) (max_tokens : Nat := 200) : String :=
  if ¬ (credsConfigured cfg = true) then
    "⚠️ Azure OpenAI not configured. Please set your API credentials in .env file."
  else
    match azure_try outcome with
    | .ok content => content.trim
    | .error (.requestException e) => "⚠️ Error calling Azure OpenAI: " ++ e
    | .error (.otherException e) => "⚠️ Unexpected error: " ++ e

/-- The prompt built by `generate_eligibility_explanation`
(app.py lines 177-191), embedding scheme name, ministry, beneficiary,
benefit and the user profile. -/
def eligibility_prompt (scheme : Scheme) (user_profile : String) : String :=
  "\n    Scheme Name: " ++ scheme.name ++
  "\n    Ministry: " ++ scheme.ministry ++
  "\n    Beneficiary Type: " ++ scheme.beneficiary ++
  "\n    Benefit: " ++ scheme.benefit ++
  "\n    \n    User Profile: " ++ user_profile ++
  "\n    \n    Based on the scheme details and user profile:" ++
  "\n    1. Briefly explain (2-3 sentences) why this user MIGHT be eligible" ++
  "\n    2. Mention any potential eligibility gaps" ++
  "\n    3. Suggest next steps" ++
  "\n    \n    Keep language simple and non-legal.\n    "

/-- Embedding of `generate_eligibility_explanation` (app.py lines 172-199):
calls `call_azure_openai` on the composed prompt with `max_tokens=150` and
pairs the resulting string with `calculate_match_score`. -/
def generate_eligibility_explanation (cfg : AzureConfig) (outcome : ApiOutcome)
    (scheme : Scheme) (user_profile : String) : String × Nat :=
  let prompt := eligibility_prompt scheme user_profile
  let explanation := call_azure_openai cfg outcome prompt 150
  let match_score := calculate_match_score scheme user_profile
  (explanation, match_score)

/-- The number of shared vocabulary-keyword hits between a scheme and a
profile, exactly as counted inside `calculate_match_score`. -/
def match_count (scheme : Scheme) (user_profile : String) : Nat :=
  keywords.countP (fun keyword =>
    strIn keyword (pyLower (scheme.name ++ " " ++ scheme.beneficiary ++ " " ++ scheme.category)) &&
    strIn keyword (pyLower user_profile))

/-- The match-count exactly as claim C1 words it: keywords present in both
the lowercased CONCATENATION (no separator) of `scheme.name`,
`scheme.beneficiary` and `scheme.category` and the lowercased profile. -/
def claim_concat_match_count (scheme : Scheme) (profile : String) : Nat :=
  (keywords.filter (fun kw =>
    strIn kw (pyLower (scheme.name ++ scheme.beneficiary ++ scheme.category)) &&
    strIn kw (pyLower profile))).length

/-- The score formula of claim C1 built on `claim_concat_match_count`. -/
def claim_concat_score (scheme : Scheme) (profile : String) : Nat :=
  min 95 (50 + 5 * claim_concat_match_count scheme profile)

/-- The match-count of claim C1 with the concatenation amended to the
space-separated join `f"{name} {beneficiary} {category}"` the code builds. -/
def claim_spaced_match_count (scheme : Scheme) (profile : String) : Nat :=
  (keywords.filter (fun kw =>
    strIn kw (pyLower (scheme.name ++ " " ++ scheme.beneficiary ++ " " ++ scheme.category)) &&
    strIn kw (pyLower profile))).length

/-- Whole-word tokens of a string: maximal space-delimited runs of
characters, the word-boundary notion that claim C10 contrasts with the
code's raw substring containment. -/
def wordTokens (s : String) : List (List Char) :=
  (s.data.splitOn ' ').filter (fun w => !w.isEmpty)

/-- A scheme whose name and beneficiary concatenate (without separator) to
a string containing the keyword "girl", although neither field nor the
space-joined scheme text contains it. -/
def girlScheme : Scheme :=
  { id := 1, name := "Gi", ministry := "M", beneficiary := "rl", benefit := "B",
    category := "Scheme", description := "D", source_url := "U" }

/-- The example scheme of spec §8: Kisan Samman for farmers. -/
def farmerScheme : Scheme :=
  { id := 2, name := "Kisan Samman", ministry := "Ministry of Agriculture",
    beneficiary := "farmer", benefit := "Income support",
    category := "Farmers", description := "Income support for farmers",
    source_url := "https://pmkisan.gov.in" }

/-- A scheme whose texts contain the keywords "small" and "old" only inside
longer words ("smallholding", "households"). -/
def smallholdingScheme : Scheme :=
  { id := 3, name := "Smallholding Support", ministry := "M",
    beneficiary := "households", benefit := "B", category := "Welfare",
    description := "D", source_url := "U" }

/-- A configuration with both credentials present and non-empty. -/
def testConfig : AzureConfig :=
  { apiKey := some "key", endpoint := some "https://example.openai.azure.com",
    deploymentName := "gpt-35-turbo" }

/-- A configuration with the API key unset, so the credential check fails. -/
def emptyConfig : AzureConfig :=
  { apiKey := none, endpoint := some "https://example.openai.azure.com",
    deploymentName := "gpt-35-turbo" }

/-- Lowercasing a concatenation lowercases each part. -/
theorem pyLower_append (a b : String) : pyLower (a ++ b) = pyLower a ++ pyLower b := by
  cases a; cases b
  simp only [pyLower, String.append]
  exact congrArg String.mk (List.map_append Char.toLower _ _)

/-- The score is the saturated affine function of the shared-keyword count. -/
theorem calculate_match_score_eq_match_count (scheme : Scheme) (profile : String) :
    calculate_match_score scheme profile = min 95 (50 + match_count scheme profile * 5) := rfl

/-- C1 counterexample: for the scheme with name "Gi", beneficiary "rl" and
category "Scheme" and the profile "girl", the separator-free concatenation
"girlscheme" contains the keyword "girl", so the claim's formula yields
55, but the code joins the fields with spaces ("gi rl scheme"), finds no
shared keyword, and returns 50. -/
theorem C1_counterexample :
    calculate_match_score girlScheme "girl" = 50 ∧
    claim_concat_score girlScheme "girl" = 55 := by
  constructor
  · decide
  · decide

/-- C1 (amended): for every scheme and profile, the match score equals
min(95, 50 + 5 × match_count), where match_count counts the vocabulary
keywords present in both the lowercased SPACE-SEPARATED concatenation of
scheme.name, scheme.beneficiary and scheme.category and the lowercased
profile text. -/
theorem C1_amended_score_formula (scheme : Scheme) (profile : String) :
    calculate_match_score scheme profile =
      min 95 (50 + 5 * claim_spaced_match_count scheme profile) := by
  rw [calculate_match_score_eq_match_count]
  unfold match_count claim_spaced_match_count
  rw [List.countP_eq_length_filter, Nat.mul_comm]

/-- C2: filtering returns exactly the schemes, in the original order, whose
fields satisfy the conjunction of the active criteria: the non-empty query
must occur case-insensitively as a substring of name, description, ministry
or beneficiary, and each categorical criterion differing from its "All ..."
sentinel must equal the corresponding field exactly. -/
theorem C2_filter_schemes_spec (schemes : List Scheme) (q m b c : String) :
    filter_schemes schemes q m b c = schemes.filter (matchesCriteria q m b c) := by
  unfold filter_schemes matchesCriteria
  cases hq : q == "" <;> cases hm : m == "All Ministries" <;>
    cases hb : b == "All Types" <;> cases hc : c == "All Categories" <;>
      simp [hq, hm, hb, hc, ← beq_iff_eq, List.filter_filter, Bool.and_assoc,
        Bool.and_comm, Bool.and_left_comm]

/-- C3 counterexample: on malformed catalog content the loader does not
return an empty reported catalog — the parse exception propagates, because
only `FileNotFoundError` is caught. -/
theorem C3_counterexample :
    load_schemes (.malformed "Expecting value: line 1 column 1 (char 0)") =
      .raised "Expecting value: line 1 column 1 (char 0)" ∧
    load_schemes (.malformed "Expecting value: line 1 column 1 (char 0)") ≠
      .returned [] true := by
  constructor
  · rfl
  · decide

/-- C3 (amended): when the catalog resource is MISSING the loader returns an
empty scheme collection and reports a condition; when the content is
malformed the parse exception propagates uncaught; a parsed document yields
its schemes field (or an empty collection when the field is absent). -/
theorem C3_amended_loader (msg : String) (schemes? : Option (List Scheme)) :
    load_schemes .missing = .returned [] true ∧
    load_schemes (.malformed msg) = .raised msg ∧
    load_schemes (.wellFormed schemes?) = .returned (schemes?.getD []) false :=
  ⟨rfl, rfl, rfl⟩

/-- C4: for every failure of the external call — a raised
`RequestException` (network error, timeout, non-2xx) or any other exception
(malformed payload), or missing credentials — the Explanation Generator
returns a fallback string describing the failure paired with the match
score; every exception class is handled, so nothing propagates. -/
theorem C4_explain_failure_fallback (cfg : AzureConfig) (outcome : ApiOutcome)
    (scheme : Scheme) (profile : String)
    (h : (∃ e, outcome = .failure e) ∨ credsConfigured cfg = false) :
    ∃ msg,
      generate_eligibility_explanation cfg outcome scheme profile =
        ("⚠️ Error calling Azure OpenAI: " ++ msg, calculate_match_score scheme profile) ∨
      generate_eligibility_explanation cfg outcome scheme profile =
        ("⚠️ Unexpected error: " ++ msg, calculate_match_score scheme profile) ∨
      generate_eligibility_explanation cfg outcome scheme profile =
        ("⚠️ Azure OpenAI not configured. Please set your API credentials in .env file.",
          calculate_match_score scheme profile) := by
  unfold generate_eligibility_explanation call_azure_openai azure_try
  by_cases hc : credsConfigured cfg = true
  · rcases h with ⟨e, rfl⟩ | hfalse
    · cases e with
      | requestException msg => exact ⟨msg, Or.inl (by simp [hc])⟩
      | otherException msg => exact ⟨msg, Or.inr (Or.inl (by simp [hc]))⟩
    · rw [hfalse] at hc
      exact Bool.noConfusion hc
  · exact ⟨"", Or.inr (Or.inr (by simp [hc]))⟩

/-- Witness for C4 at a concrete input: configured credentials, a timeout
raised as a `RequestException`, the spec §8 example scheme and profile. -/
theorem C4_explain_failure_fallback_witness :
    ∃ msg,
      generate_eligibility_explanation testConfig
          (.failure (.requestException "Read timed out. (read timeout=10)"))
          farmerScheme "35 years old farmer" =
        ("⚠️ Error calling Azure OpenAI: " ++ msg,
          calculate_match_score farmerScheme "35 years old farmer") ∨
      generate_eligibility_explanation testConfig
          (.failure (.requestException "Read timed out. (read timeout=10)"))
          farmerScheme "35 years old farmer" =
        ("⚠️ Unexpected error: " ++ msg,
          calculate_match_score farmerScheme "35 years old farmer") ∨
      generate_eligibility_explanation testConfig
          (.failure (.requestException "Read timed out. (read timeout=10)"))
          farmerScheme "35 years old farmer" =
        ("⚠️ Azure OpenAI not configured. Please set your API credentials in .env file.",
          calculate_match_score farmerScheme "35 years old farmer") :=
  C4_explain_failure_fallback testConfig _ farmerScheme "35 years old farmer"
    (Or.inl ⟨.requestException "Read timed out. (read timeout=10)", rfl⟩)

/-- C5: with unconfigured credentials the Explanation Generator
short-circuits to the configuration-warning string paired with the Match
Scorer's score, and the result is independent of the network outcome —
no call is observable. -/
theorem C5_unconfigured_short_circuit (cfg : AzureConfig) (out1 out2 : ApiOutcome)
    (scheme : Scheme) (profile : String) (h : credsConfigured cfg = false) :
    generate_eligibility_explanation cfg out1 scheme profile =
      ("⚠️ Azure OpenAI not configured. Please set your API credentials in .env file.",
        calculate_match_score scheme profile) ∧
    generate_eligibility_explanation cfg out1 scheme profile =
      generate_eligibility_explanation cfg out2 scheme profile := by
  unfold generate_eligibility_explanation call_azure_openai
  simp [h]

/-- Witness for C5 at a concrete input: a missing API key, two different
network outcomes, the spec §8 example scheme and profile. -/
theorem C5_unconfigured_short_circuit_witness :
    generate_eligibility_explanation emptyConfig
        (.failure (.requestException "unreachable")) farmerScheme "35 years old farmer" =
      ("⚠️ Azure OpenAI not configured. Please set your API credentials in .env file.",
        calculate_match_score farmerScheme "35 years old farmer") ∧
    generate_eligibility_explanation emptyConfig
        (.failure (.requestException "unreachable")) farmerScheme "35 years old farmer" =
      generate_eligibility_explanation emptyConfig (.success "You may be eligible.")
        farmerScheme "35 years old farmer" :=
  C5_unconfigured_short_circuit emptyConfig _ _ farmerScheme "35 years old farmer"
    (by decide)

/-- C6: for every scheme and profile the match score lies in [50, 95]. -/
theorem C6_score_bounds (scheme : Scheme) (profile : String) :
    50 ≤ calculate_match_score scheme profile ∧
    calculate_match_score scheme profile ≤ 95 := by
  rw [calculate_match_score_eq_match_count]
  omega

/-- C7: the score is monotonically non-decreasing in the number of shared
keyword hits, and never exceeds 95 however many keywords are shared. -/
theorem C7_score_monotone_saturating (s1 s2 : Scheme) (p1 p2 : String)
    (h : match_count s1 p1 ≤ match_count s2 p2) :
    calculate_match_score s1 p1 ≤ calculate_match_score s2 p2 ∧
    calculate_match_score s2 p2 ≤ 95 := by
  rw [calculate_match_score_eq_match_count, calculate_match_score_eq_match_count]
  omega

/-- Witness for C7 at a concrete input: the empty profile shares no keyword
with the spec §8 example scheme, the example profile shares one. -/
theorem C7_score_monotone_saturating_witness :
    match_count farmerScheme "" ≤ match_count farmerScheme "35 years old farmer" ∧
    (calculate_match_score farmerScheme "" ≤
        calculate_match_score farmerScheme "35 years old farmer" ∧
      calculate_match_score farmerScheme "35 years old farmer" ≤ 95) :=
  ⟨by decide, C7_score_monotone_saturating farmerScheme farmerScheme "" "35 years old farmer"
    (by decide)⟩

/-- C8: changing the letter case of the scheme's name, beneficiary or
category, or of the profile text, leaves the score unchanged. -/
theorem C8_score_case_insensitive (s1 s2 : Scheme) (p1 p2 : String)
    (hn : pyLower s1.name = pyLower s2.name)
    (hb : pyLower s1.beneficiary = pyLower s2.beneficiary)
    (hc : pyLower s1.category = pyLower s2.category)
    (hp : pyLower p1 = pyLower p2) :
    calculate_match_score s1 p1 = calculate_match_score s2 p2 := by
  unfold calculate_match_score
  simp only [pyLower_append, hn, hb, hc, hp]

/-- The spec §8 example scheme with the letter case of its matching-relevant
fields changed. -/
def farmerSchemeCaps : Scheme :=
  { farmerScheme with
    name := "KISAN samman",
    beneficiary := "FARMER",
    category := "farmers" }

/-- Witness for C8 at a concrete input: the spec §8 example scheme with its
fields and the profile re-capitalised. -/
theorem C8_score_case_insensitive_witness :
    pyLower farmerSchemeCaps.name = pyLower farmerScheme.name ∧
    pyLower farmerSchemeCaps.beneficiary = pyLower farmerScheme.beneficiary ∧
    pyLower farmerSchemeCaps.category = pyLower farmerScheme.category ∧
    pyLower "35 Years Old FARMER" = pyLower "35 years old farmer" ∧
    calculate_match_score farmerSchemeCaps "35 Years Old FARMER" =
      calculate_match_score farmerScheme "35 years old farmer" :=
  ⟨by decide, by decide, by decide, by decide,
    C8_score_case_insensitive farmerSchemeCaps farmerScheme
      "35 Years Old FARMER" "35 years old farmer"
      (by decide) (by decide) (by decide) (by decide)⟩

/-- C9: filtering with an empty query and every categorical criterion at
its "All ..." sentinel returns the catalog unchanged, in original order. -/
theorem C9_unconstrained_filter_identity (schemes : List Scheme) :
    filter_schemes schemes "" "All Ministries" "All Types" "All Categories" = schemes := rfl

/-- C10: keyword presence is raw substring containment, not word-boundary
token membership — this scheme/profile pair scores above 50 although no
vocabulary keyword occurs as a whole word in either text ("small" and
"old" occur only inside "smallholding", "smallholder" and "household"). -/
theorem C10_substring_not_word_boundary :
    ∃ (scheme : Scheme) (profile : String),
      50 < calculate_match_score scheme profile ∧
      ∀ kw ∈ keywords,
        ¬(kw.data ∈ wordTokens (pyLower (scheme.name ++ " " ++ scheme.beneficiary ++ " " ++ scheme.category)) ∧
          kw.data ∈ wordTokens (pyLower profile)) :=
  ⟨smallholdingScheme, "smallholder household", by decide, by decide⟩

end SchemeMitra

